import Mathlib

/-!
Verification of the BNO080 SHTP driver in
src/050-Arduino/BNO080ArduinoMyRIOInterface/BNO080ArduinoMyRIOInterface.ino.

The C++ code is shallowly embedded: 8-bit and 16-bit machine integers
become Nat with explicit reductions modulo 256 / 65536 where the C code
can overflow or truncate, signed 16-bit values become Int through an
explicit reinterpretation function, and the float arithmetic of
qToFloat (a product of a 16-bit integer and an exact power of two, both
exactly representable in binary floating point) is embedded as exact
rational arithmetic.  The I2C bus is modelled as an oracle
`Nat → Option (List Nat)`: transaction k either times out of the
100-iteration polling window of waitForI2C (`none`) or delivers a byte
list (`some tr`) from which successive Wire.read calls take bytes
(returning 255, the uint8 image of -1, past the end).  A cursor in the
machine state tracks how many transactions have been consumed.
-/

/-- Reinterpret a uint16 bit pattern as int16, as the C implicit
conversion in `qToFloat(rawQuatI, ...)` does (the raw members are
uint16_t while the qToFloat parameter is int16_t). -/
def toInt16 (n : Nat) : Int :=
  if n % 65536 < 32768 then ((n % 65536 : Nat) : Int)
  else ((n % 65536 : Nat) : Int) - 65536

/-- BNO080::qToFloat: `qFloat = fixedPointValue; qFloat *= pow(2, qPoint * -1)`.
Embedded exactly over the rationals. -/
def qToFloat (fixedPointValue : Int) (qPoint : Nat) : ℚ :=
  (fixedPointValue : ℚ) * (2 : ℚ) ^ (-(qPoint : Int))

/-- rotationVector_Q1 member constant. -/
def rotationVector_Q1 : Nat := 14

/-- accelerometer_Q1 member constant. -/
def accelerometer_Q1 : Nat := 8

/-- linear_accelerometer_Q1 member constant. -/
def linear_accelerometer_Q1 : Nat := 8

/-- gyro_Q1 member constant. -/
def gyro_Q1 : Nat := 9

/-- magnetometer_Q1 member constant. -/
def magnetometer_Q1 : Nat := 4

/-- The raw sensor members of class BNO080 that parseInputReport writes.
uint16 members are Nat; the caller supplied activity-confidence array is
a total function over its 9 indices. -/
structure SensorState where
  rawAccelX : Nat
  rawAccelY : Nat
  rawAccelZ : Nat
  accelAccuracy : Nat
  rawLinAccelX : Nat
  rawLinAccelY : Nat
  rawLinAccelZ : Nat
  accelLinAccuracy : Nat
  rawGyroX : Nat
  rawGyroY : Nat
  rawGyroZ : Nat
  gyroAccuracy : Nat
  rawMagX : Nat
  rawMagY : Nat
  rawMagZ : Nat
  magAccuracy : Nat
  rawQuatI : Nat
  rawQuatJ : Nat
  rawQuatK : Nat
  rawQuatReal : Nat
  rawQuatRadianAccuracy : Nat
  quatAccuracy : Nat
  stepCount : Nat
  stabilityClassifier : Nat
  activityClassifier : Nat
  activityConfidences : Nat → Nat

/-- BNO080::getQuatI. -/
def getQuatI (s : SensorState) : ℚ := qToFloat (toInt16 s.rawQuatI) rotationVector_Q1

/-- BNO080::getQuatJ. -/
def getQuatJ (s : SensorState) : ℚ := qToFloat (toInt16 s.rawQuatJ) rotationVector_Q1

/-- BNO080::getQuatK. -/
def getQuatK (s : SensorState) : ℚ := qToFloat (toInt16 s.rawQuatK) rotationVector_Q1

/-- BNO080::getQuatReal. -/
def getQuatReal (s : SensorState) : ℚ := qToFloat (toInt16 s.rawQuatReal) rotationVector_Q1

/-- BNO080::getQuatRadianAccuracy. -/
def getQuatRadianAccuracy (s : SensorState) : ℚ :=
  qToFloat (toInt16 s.rawQuatRadianAccuracy) rotationVector_Q1

/-- BNO080::getAccelX. -/
def getAccelX (s : SensorState) : ℚ := qToFloat (toInt16 s.rawAccelX) accelerometer_Q1

/-- BNO080::getAccelY. -/
def getAccelY (s : SensorState) : ℚ := qToFloat (toInt16 s.rawAccelY) accelerometer_Q1

/-- BNO080::getAccelZ. -/
def getAccelZ (s : SensorState) : ℚ := qToFloat (toInt16 s.rawAccelZ) accelerometer_Q1

/-- BNO080::getLinAccelX. -/
def getLinAccelX (s : SensorState) : ℚ :=
  qToFloat (toInt16 s.rawLinAccelX) linear_accelerometer_Q1

/-- BNO080::getLinAccelY. -/
def getLinAccelY (s : SensorState) : ℚ :=
  qToFloat (toInt16 s.rawLinAccelY) linear_accelerometer_Q1

/-- BNO080::getLinAccelZ. -/
def getLinAccelZ (s : SensorState) : ℚ :=
  qToFloat (toInt16 s.rawLinAccelZ) linear_accelerometer_Q1

/-- BNO080::getGyroX. -/
def getGyroX (s : SensorState) : ℚ := qToFloat (toInt16 s.rawGyroX) gyro_Q1

/-- BNO080::getGyroY. -/
def getGyroY (s : SensorState) : ℚ := qToFloat (toInt16 s.rawGyroY) gyro_Q1

/-- BNO080::getGyroZ. -/
def getGyroZ (s : SensorState) : ℚ := qToFloat (toInt16 s.rawGyroZ) gyro_Q1

/-- BNO080::getMagX. -/
def getMagX (s : SensorState) : ℚ := qToFloat (toInt16 s.rawMagX) magnetometer_Q1

/-- BNO080::getMagY. -/
def getMagY (s : SensorState) : ℚ := qToFloat (toInt16 s.rawMagY) magnetometer_Q1

/-- BNO080::getMagZ. -/
def getMagZ (s : SensorState) : ℚ := qToFloat (toInt16 s.rawMagZ) magnetometer_Q1

/-- The 16-bit length computation shared by receivePacket and
parseInputReport: assemble the little-endian 16-bit header length and
clear the top (continuation) bit.  The C code performs the clearing on
an int16 with `dataLength &= ~(1 << 15)`; on the underlying 16 bits
this is reduction modulo 32768. -/
def shtpLength (lsb msb : Nat) : Nat :=
  ((msb % 256) * 256 + lsb % 256) % 32768

/-- The data-byte count of parseInputReport: header length with the
continuation bit cleared, minus the 4 header bytes (kept as int16, it
can go negative and is used in signed comparisons). -/
def parseDataLength (hdr : Nat → Nat) : Int :=
  (shtpLength (hdr 0) (hdr 1) : Int) - 4

/-- BNO080::parseInputReport, as a function of the shtpHeader and
shtpData buffers and the previous sensor members.  Byte reads are
reduced modulo 256 because the buffers are uint8 arrays. -/
def parseInputReport (hdr data : Nat → Nat) (s : SensorState) : SensorState :=
  let dataLength : Int := parseDataLength hdr
  let status := data 7 % 256 % 4
  let data1 := (data 10 % 256) * 256 + data 9 % 256
  let data2 := (data 12 % 256) * 256 + data 11 % 256
  let data3 := (data 14 % 256) * 256 + data 13 % 256
  let data4 := if 9 < dataLength - 5 then (data 16 % 256) * 256 + data 15 % 256 else 0
  let data5 := if 11 < dataLength - 5 then (data 18 % 256) * 256 + data 17 % 256 else 0
  if data 5 % 256 = 0x01 then
    { s with accelAccuracy := status, rawAccelX := data1, rawAccelY := data2,
             rawAccelZ := data3 }
  else if data 5 % 256 = 0x04 then
    { s with accelLinAccuracy := status, rawLinAccelX := data1, rawLinAccelY := data2,
             rawLinAccelZ := data3 }
  else if data 5 % 256 = 0x02 then
    { s with gyroAccuracy := status, rawGyroX := data1, rawGyroY := data2,
             rawGyroZ := data3 }
  else if data 5 % 256 = 0x03 then
    { s with magAccuracy := status, rawMagX := data1, rawMagY := data2,
             rawMagZ := data3 }
  else if data 5 % 256 = 0x05 ∨ data 5 % 256 = 0x08 then
    { s with quatAccuracy := status, rawQuatI := data1, rawQuatJ := data2,
             rawQuatK := data3, rawQuatReal := data4, rawQuatRadianAccuracy := data5 }
  else if data 5 % 256 = 0x11 then
    { s with stepCount := data3 }
  else if data 5 % 256 = 0x13 then
    { s with stabilityClassifier := data 9 % 256 }
  else if data 5 % 256 = 0x1E then
    { s with activityClassifier := data 10 % 256,
             activityConfidences := fun x =>
               if x < 9 then data (11 + x) % 256 else s.activityConfidences x }
  else
    s

/-- The machine state of the driver object and its I2C bus.  `bus k` is
the outcome of the k-th requestFrom transaction: `none` when
waitForI2C exhausts its 100-iteration polling window without the bus
signalling data, `some tr` when the bytes tr become available.
`cursor` counts the transactions consumed so far.  The uint8 arrays
shtpHeader, shtpData and the uint32 array metaData are total functions;
`seq` is the per-channel sequenceNumber array. -/
structure BNOState where
  bus : Nat → Option (List Nat)
  cursor : Nat
  shtpHeader : Nat → Nat
  shtpData : Nat → Nat
  metaData : Nat → Nat
  seq : Nat → Nat

/-- A Wire.read byte: the i-th byte of a transaction, or 255 (the uint8
image of the -1 that Wire.read returns past the end of the data). -/
def rd (tr : List Nat) (i : Nat) : Nat := tr.getD i 255 % 256

/-- The byte-copy loop of getData for one chunk: for x below n, write
byte x+4 of the transaction (the first four bytes are the re-sent
header and are thrown away) to shtpData[dataSpot + x], guarded by the
`dataSpot < MAX_PACKET_SIZE` bounds check (MAX_PACKET_SIZE = 128). -/
def readChunk (tr : List Nat) (dataSpot : Nat) (buf : Nat → Nat) : Nat → (Nat → Nat)
  | 0 => buf
  | m + 1 =>
    let prev := readChunk tr dataSpot buf m
    if dataSpot + m < 128 then Function.update prev (dataSpot + m) (rd tr (m + 4)) else prev

/-- The chunked-read loop of BNO080::getData.  `remaining` is the C
loop variable bytesRemaining; each iteration reads
min(remaining, I2C_BUFFER_LENGTH - 4) = min(remaining, 28) payload
bytes from the next bus transaction (default I2C_BUFFER_LENGTH = 32).
The structural fuel starts at the initial byte count; every iteration
consumes at least one remaining byte, so fuel never runs out before
remaining reaches zero. -/
def getDataAux : Nat → BNOState → Nat → Nat → Bool × BNOState
  | 0, s, _, _ => (true, s)
  | fuel + 1, s, remaining, dataSpot =>
    if remaining = 0 then (true, s)
    else
      let n := min remaining 28
      match s.bus s.cursor with
      | none => (false, { s with cursor := s.cursor + 1 })
      | some tr =>
        getDataAux fuel
          { s with cursor := s.cursor + 1, shtpData := readChunk tr dataSpot s.shtpData n }
          (remaining - n) (dataSpot + n)

/-- BNO080::getData. -/
def getData (s : BNOState) (bytesRemaining dataSpot : Nat) : Bool × BNOState :=
  getDataAux bytesRemaining s bytesRemaining dataSpot

/-- BNO080::receivePacket.  Reads a 4-byte header from one bus
transaction, stores it, clears the continuation bit of the length
field, returns false on timeout or on an empty packet, and otherwise
runs getData on `dataLength - 4` computed in uint16 arithmetic (the C
code passes the int16 difference to a uint16 parameter, so a declared
length of 1..3 wraps to 65533..65535).  The result of getData is
discarded, exactly as in the source. -/
def receivePacket (s : BNOState) : Bool × BNOState :=
  match s.bus s.cursor with
  | none => (false, { s with cursor := s.cursor + 1 })
  | some tr =>
    let s1 : BNOState :=
      { s with cursor := s.cursor + 1,
               shtpHeader := fun i => if i < 4 then rd tr i else s.shtpHeader i }
    let dataLength := shtpLength (rd tr 0) (rd tr 1)
    if dataLength = 0 then (false, s1)
    else (true, (getData s1 ((dataLength + 65532) % 65536) 0).2)

/-- BNO080::sendPacket.  Computes the uint8 packetLength = dataLength + 4
(wrapping modulo 256), emits the 4-byte header followed by dataLength
bytes of shtpData, and post-increments the uint8 sequence counter of the
channel.  Returns the transmitted frame together with the new state. -/
def sendPacket (channelNumber dataLength : Nat) (s : BNOState) : List Nat × BNOState :=
  let packetLength := (dataLength % 256 + 4) % 256
  let frame :=
    [packetLength % 256, packetLength / 256, channelNumber % 256, s.seq channelNumber % 256]
      ++ (List.range (dataLength % 256)).map (fun i => s.shtpData i % 256)
  (frame, { s with seq := Function.update s.seq channelNumber ((s.seq channelNumber + 1) % 256) })

/-- BNO080::frsReadRequest: fill shtpData[0..7] with the FRS read
request and send it on channel 2 (CHANNEL_CONTROL) with 8 data bytes. -/
def frsReadRequest (recordID readOffset blockSize : Nat) (s : BNOState) : BNOState :=
  let d : Nat → Nat := fun i =>
    if i = 0 then 0xF4
    else if i = 1 then 0
    else if i = 2 then readOffset % 256
    else if i = 3 then readOffset / 256 % 256
    else if i = 4 then recordID % 256
    else if i = 5 then recordID / 256 % 256
    else if i = 6 then blockSize % 256
    else if i = 7 then blockSize / 256 % 256
    else s.shtpData i
  (sendPacket 2 8 { s with shtpData := d }).2

/-- The inner retry loop of readFRSdata:
`while (receivePacket() == false) { if (counter++ > 100) return false; delay(1); }`.
Starting from counter = 0, the loop gives up after the 102nd
consecutive failed receivePacket; the fuel is the number of attempts
still allowed, so the loop is entered with fuel = 102. -/
def frsWait : Nat → BNOState → Bool × BNOState
  | 0, s => (false, s)
  | fuel + 1, s =>
    match receivePacket s with
    | (true, s1) => (true, s1)
    | (false, s1) => frsWait fuel s1

/-- The unbounded packet-processing loop of BNO080::readFRSdata, with
explicit fuel counting received packets (the C loop has no bound of its
own: `none` means the loop was still running after `fuel` packets).
Each iteration waits for a packet; if the wait gives up the whole read
returns false; a packet whose report id is not 0xF3 or whose record id
does not match is skipped; a matching packet contributes up to two
32-bit words to metaData, then the read returns true when the metaData
array is full (MAX_METADATA_SIZE = 9) or the FRS status nibble is
3, 6 or 7. -/
def readFRSloop (recordID spot : Nat) (s : BNOState) : Nat → Option (Bool × BNOState)
  | 0 => none
  | fuel + 1 =>
    match frsWait 102 s with
    | (false, s1) => some (false, s1)
    | (true, s1) =>
      if s1.shtpData 0 % 256 = 0xF3 ∧
          (s1.shtpData 13 % 256) * 256 + s1.shtpData 12 % 256 = recordID % 65536 then
        let dataLength := s1.shtpData 1 % 256 / 16
        let frsStatus := s1.shtpData 1 % 256 % 16
        let data0 := (s1.shtpData 7 % 256) * 16777216 + (s1.shtpData 6 % 256) * 65536 +
          (s1.shtpData 5 % 256) * 256 + s1.shtpData 4 % 256
        let data1 := (s1.shtpData 11 % 256) * 16777216 + (s1.shtpData 10 % 256) * 65536 +
          (s1.shtpData 9 % 256) * 256 + s1.shtpData 8 % 256
        let m1 := if 0 < dataLength then Function.update s1.metaData spot data0 else s1.metaData
        let spot1 := if 0 < dataLength then spot + 1 else spot
        let m2 := if 1 < dataLength then Function.update m1 spot1 data1 else m1
        let spot2 := if 1 < dataLength then spot1 + 1 else spot1
        let s2 := { s1 with metaData := m2 }
        if 9 ≤ spot2 then some (true, s2)
        else if frsStatus = 3 ∨ frsStatus = 6 ∨ frsStatus = 7 then some (true, s2)
        else readFRSloop recordID spot2 s2 fuel
      else readFRSloop recordID spot s1 fuel

/-- BNO080::readFRSdata: send the FRS read request, then run the
polling loop with spot = 0. -/
def readFRSdata (recordID startLocation wordsToRead : Nat) (s : BNOState) (fuel : Nat) :
    Option (Bool × BNOState) :=
  readFRSloop recordID 0 (frsReadRequest recordID startLocation wordsToRead s) fuel

/-- A concrete base state: empty bus, zeroed arrays and counters
(sequenceNumber is initialised to zeroes in the source). -/
def initState : BNOState :=
  { bus := fun _ => none, cursor := 0, shtpHeader := fun _ => 0, shtpData := fun _ => 0,
    metaData := fun _ => 0, seq := fun _ => 0 }

/-- The sign prefix emitted by the sketch loop:
`if (quatI > 0) Serial.print('+')`. -/
def plusSign (x : ℚ) : String := if 0 < x then "+" else ""

/-- Arduino Print::printFloat with 2 digits, over exact rationals: for a
negative number emit a minus sign and negate, add the rounding term
0.005, print the integer part, a decimal point, and two digits obtained
by repeated multiply-by-ten and truncation. -/
def printFloat2 (x : ℚ) : String :=
  let y := |x| + 1 / 200
  let ip := (⌊y⌋).toNat
  let d1 := (⌊Int.fract y * 10⌋).toNat
  let d2 := (⌊Int.fract (Int.fract y * 10) * 10⌋).toNat
  (if x < 0 then "-" else "") ++ toString ip ++ "." ++ toString d1 ++ toString d2

/-- One field of the serial line: the conditional plus sign followed by
the two-decimal rendering. -/
def quatField (x : ℚ) : String := plusSign x ++ printFloat2 x

/-- The serial line emitted by loop() for one decoded rotation-vector
report: the four conditionally signed fields separated by commas and
terminated by Serial.println (CR LF). -/
def quatLine (i j k r : ℚ) : String :=
  plusSign i ++ printFloat2 i ++ "," ++ plusSign j ++ printFloat2 j ++ "," ++
    plusSign k ++ printFloat2 k ++ "," ++ plusSign r ++ printFloat2 r ++ "\r\n"

/-- A concrete zeroed sensor member block (the members are
zero-initialised globals on the microcontroller). -/
def initSensors : SensorState :=
  { rawAccelX := 0, rawAccelY := 0, rawAccelZ := 0, accelAccuracy := 0,
    rawLinAccelX := 0, rawLinAccelY := 0, rawLinAccelZ := 0, accelLinAccuracy := 0,
    rawGyroX := 0, rawGyroY := 0, rawGyroZ := 0, gyroAccuracy := 0,
    rawMagX := 0, rawMagY := 0, rawMagZ := 0, magAccuracy := 0,
    rawQuatI := 0, rawQuatJ := 0, rawQuatK := 0, rawQuatReal := 0,
    rawQuatRadianAccuracy := 0, quatAccuracy := 0,
    stepCount := 0, stabilityClassifier := 0, activityClassifier := 0,
    activityConfidences := fun _ => 0 }

/-- A bus delivering one packet whose raw header length field is 0x8010
(continuation bit set, 16-bit length 0x10): header transaction
[0x10, 0x80, 3, 7], then one payload transaction carrying 12 payload
bytes 101..112 after its 4 thrown-away header bytes, with two further
bytes 201, 202 available beyond the 12 that should be read. -/
def c2Bus : Nat → Option (List Nat) := fun k =>
  if k = 0 then some [0x10, 0x80, 3, 7]
  else if k = 1 then
    some [0, 0, 0, 0, 101, 102, 103, 104, 105, 106, 107, 108, 109, 110, 111, 112, 201, 202]
  else none

/-- The machine state holding the continuation-bit test bus. -/
def c2State : BNOState := { initState with bus := c2Bus }

/-- Claim C3 formalised, restricted to the part about a timeout during
the chunked payload read: the header transaction succeeds with a
declared length of at least 5 (so at least one payload byte must be
fetched by getData), the next transaction times out, and the claim says
receivePacket then returns false. -/
def C3ClaimGetDataPart : Prop :=
  ∀ (s : BNOState) (tr : List Nat),
    s.bus s.cursor = some tr →
    5 ≤ shtpLength (rd tr 0) (rd tr 1) →
    s.bus (s.cursor + 1) = none →
    (receivePacket s).1 = false

/-- A bus whose header read succeeds (declared length 16, so 12 payload
bytes are needed) but whose payload transaction times out. -/
def c3CexState : BNOState :=
  { initState with bus := fun k => if k = 0 then some [16, 0, 3, 0] else none }

/-- Concrete shtpData contents for exercising the accelerometer branch
of parseInputReport: report id 0x01 at index 5, one nonzero data byte. -/
def w7Data : Nat → Nat := fun i => if i = 5 then 1 else if i = 9 then 10 else 0

/-- A state whose bus always has data available (transactions of 32
bytes, value 9). -/
def w8State : BNOState := { initState with bus := fun _ => some (List.replicate 32 9) }

/-- An FRS read-response transaction as received over the bus: 4
thrown-away chunk-header bytes, then the 16 payload bytes
[0xF3 (FRS read response), status byte, 2 reserved bytes,
4 bytes of data word 0, 4 bytes of data word 1, record id LSB,
record id MSB, 2 offset bytes]. -/
def frsRespTrans (st rl rh b4 b5 b6 b7 b8 b9 b10 b11 : Nat) : List Nat :=
  [0, 0, 0, 0, 0xF3, st, 0, 0, b4, b5, b6, b7, b8, b9, b10, b11, rl, rh, 0, 0]

/-- A concrete state delivering one FRS response for record 0xE302 with
status byte 0x23 (2 data words, terminal status 3). -/
def sC5 : BNOState :=
  { initState with bus := fun k =>
      if k = 0 then some [20, 0, 2, 0]
      else if k = 1 then some (frsRespTrans 0x23 2 0xE3 11 12 13 14 21 22 23 24)
      else none }

/-- A transaction that always parses as a complete non-FRS packet:
header declares length 8, so 4 payload bytes, all zero. -/
def advTr : List Nat := [8, 0, 3, 0, 0, 0, 0, 0]

/-- A bus on which a well-formed non-matching packet is always
available: no transaction ever times out, and no received packet is an
FRS read response. -/
def advBus : Nat → Option (List Nat) := fun _ => some advTr

/-- The machine state sitting on the always-non-matching bus. -/
def sAdv : BNOState := { initState with bus := advBus }

/-- No packet matching an FRS read response can ever be received from
this state: the resident shtpData buffer does not already hold the
0xF3 report id, and byte 4 of every available transaction (the byte a
payload read would place in shtpData[0]) is not 0xF3. -/
def NoMatchingResponse (s : BNOState) : Prop :=
  s.shtpData 0 % 256 ≠ 0xF3 ∧ ∀ k tr, s.bus k = some tr → rd tr 4 ≠ 0xF3

/-- Claim C6 formalised: on every input on which no matching response
is ever received, readFRSdata terminates (some fuel suffices) with a
failure result. -/
def C6Statement : Prop :=
  ∀ (s : BNOState) (recordID startLocation wordsToRead : Nat),
    NoMatchingResponse s →
    ∃ fuel s2, readFRSdata recordID startLocation wordsToRead s fuel = some (false, s2)

/-! ### Helper lemmas -/

/-- The source multiplication by pow(2, -q) agrees with division by 2^q. -/
lemma qToFloat_eq_div (v : Int) (q : Nat) : qToFloat v q = (v : ℚ) / 2 ^ q := by
  rw [qToFloat, zpow_neg, zpow_natCast, div_eq_mul_inv]

lemma string_empty_append (s : String) : "" ++ s = s := by
  cases s
  rfl

/-- A byte index at or beyond MAX_PACKET_SIZE is never written by the
chunk-copy loop. -/
lemma readChunk_frame (tr : List Nat) (dataSpot : Nat) (buf : Nat → Nat) (n i : Nat)
    (hi : 128 ≤ i) : readChunk tr dataSpot buf n i = buf i := by
  induction n with
  | zero => rfl
  | succ m ih =>
    unfold readChunk
    by_cases h : dataSpot + m < 128
    · simp only [h, if_true]
      rw [Function.update_noteq (by omega)]
      exact ih
    · simp only [h, if_false]
      exact ih

/-- A byte index inside the copied range receives the matching
transaction byte. -/
lemma readChunk_at (tr : List Nat) (dataSpot : Nat) (buf : Nat → Nat) (n i : Nat)
    (h1 : dataSpot ≤ i) (h2 : i < dataSpot + n) (h3 : i < 128) :
    readChunk tr dataSpot buf n i = rd tr (i - dataSpot + 4) := by
  induction n with
  | zero => omega
  | succ m ih =>
    unfold readChunk
    by_cases he : i = dataSpot + m
    · have hlt : dataSpot + m < 128 := by omega
      simp only [hlt, if_true, he, Function.update_same]
      congr 1
      omega
    · have h2m : i < dataSpot + m := by omega
      by_cases hlt : dataSpot + m < 128
      · simp only [hlt, if_true]
        rw [Function.update_noteq (by omega)]
        exact ih h2m
      · simp only [hlt, if_false]
        exact ih h2m

/-- The chunked-read loop never writes at or beyond MAX_PACKET_SIZE. -/
lemma getDataAux_frame (fuel : Nat) :
    ∀ (s : BNOState) (remaining dataSpot i : Nat), 128 ≤ i →
      ((getDataAux fuel s remaining dataSpot).2).shtpData i = s.shtpData i := by
  induction fuel with
  | zero => intro s r spot i _; rfl
  | succ m ih =>
    intro s r spot i hi
    unfold getDataAux
    by_cases h : r = 0
    · simp [h]
    · simp only [h, if_false]
      cases hbus : s.bus s.cursor with
      | none => rfl
      | some tr =>
        rw [ih _ _ _ _ hi]
        exact readChunk_frame tr spot s.shtpData _ i hi

/-- If every bus transaction has data available, the chunked-read loop
succeeds, whatever the requested byte count (fuel bounds remaining, as
on entry from getData). -/
lemma getDataAux_ok (fuel : Nat) :
    ∀ (s : BNOState) (remaining dataSpot : Nat), remaining ≤ fuel →
      (∀ k, (s.bus k).isSome) → (getDataAux fuel s remaining dataSpot).1 = true := by
  induction fuel with
  | zero =>
    intro s r spot hr _
    interval_cases r
    rfl
  | succ m ih =>
    intro s r spot hr hb
    unfold getDataAux
    by_cases h : r = 0
    · simp [h]
    · simp only [h, if_false]
      cases hbus : s.bus s.cursor with
      | none => have := hb s.cursor; rw [hbus] at this; simp at this
      | some tr => exact ih _ _ _ (by omega) hb

/-- One step of the bounded receive-retry loop of readFRSdata. -/
lemma frsWait_succ (fuel : Nat) (s : BNOState) :
    frsWait (fuel + 1) s =
      match receivePacket s with
      | (true, s1) => (true, s1)
      | (false, s1) => frsWait fuel s1 := rfl

/-- On a bus that never signals data, every receive attempt fails, so
the retry loop gives up with a false result. -/
lemma frsWait_allnone (fuel : Nat) :
    ∀ s : BNOState, (∀ k, s.bus k = none) →
      (frsWait fuel s).1 = false ∧ (∀ k, ((frsWait fuel s).2).bus k = none) := by
  induction fuel with
  | zero => intro s h; exact ⟨rfl, h⟩
  | succ m ih =>
    intro s h
    rw [frsWait_succ]
    have hrp : receivePacket s = (false, { s with cursor := s.cursor + 1 }) := by
      unfold receivePacket
      rw [h s.cursor]
    rw [hrp]
    exact ih _ h

/-- One step of the packet-processing loop of readFRSdata. -/
lemma readFRSloop_succ (recordID spot : Nat) (s : BNOState) (fuel : Nat) :
    readFRSloop recordID spot s (fuel + 1) =
      match frsWait 102 s with
      | (false, s1) => some (false, s1)
      | (true, s1) =>
        if s1.shtpData 0 % 256 = 0xF3 ∧
            (s1.shtpData 13 % 256) * 256 + s1.shtpData 12 % 256 = recordID % 65536 then
          let dataLength := s1.shtpData 1 % 256 / 16
          let frsStatus := s1.shtpData 1 % 256 % 16
          let data0 := (s1.shtpData 7 % 256) * 16777216 + (s1.shtpData 6 % 256) * 65536 +
            (s1.shtpData 5 % 256) * 256 + s1.shtpData 4 % 256
          let data1 := (s1.shtpData 11 % 256) * 16777216 + (s1.shtpData 10 % 256) * 65536 +
            (s1.shtpData 9 % 256) * 256 + s1.shtpData 8 % 256
          let m1 := if 0 < dataLength then Function.update s1.metaData spot data0 else s1.metaData
          let spot1 := if 0 < dataLength then spot + 1 else spot
          let m2 := if 1 < dataLength then Function.update m1 spot1 data1 else m1
          let spot2 := if 1 < dataLength then spot1 + 1 else spot1
          let s2 := { s1 with metaData := m2 }
          if 9 ≤ spot2 then some (true, s2)
          else if frsStatus = 3 ∨ frsStatus = 6 ∨ frsStatus = 7 then some (true, s2)
          else readFRSloop recordID spot2 s2 fuel
        else readFRSloop recordID spot s1 fuel := rfl

/-- frsReadRequest touches only shtpData and the channel-2 sequence
counter. -/
lemma frsReadRequest_bus (recordID readOffset blockSize : Nat) (s : BNOState) :
    (frsReadRequest recordID readOffset blockSize s).bus = s.bus ∧
      (frsReadRequest recordID readOffset blockSize s).cursor = s.cursor ∧
      (∀ i, (frsReadRequest recordID readOffset blockSize s).metaData i = s.metaData i) :=
  ⟨rfl, rfl, fun _ => rfl⟩

/-! ### Claims -/

/-- Claim C1: qToFloat converts a 16-bit signed fixed-point value v
with Q-point q to v * 2^(-q) (exactly, over the rationals; the float
computation is exact for these operands), with q = 14, v = 16384 giving
1 and q = 8, v = -256 giving -1, and every sensor accessor applies
exactly this conversion with its sensor's Q constant: rotation vector
Q = 14, accelerometer and linear accelerometer Q = 8, gyro Q = 9,
magnetometer Q = 4. -/
theorem qToFloat_conversion :
    (∀ (v : Int) (q : Nat), qToFloat v q = (v : ℚ) / 2 ^ q)
    ∧ qToFloat 16384 14 = 1
    ∧ qToFloat (-256) 8 = -1
    ∧ (∀ s, getQuatI s = (toInt16 s.rawQuatI : ℚ) / 2 ^ 14)
    ∧ (∀ s, getQuatJ s = (toInt16 s.rawQuatJ : ℚ) / 2 ^ 14)
    ∧ (∀ s, getQuatK s = (toInt16 s.rawQuatK : ℚ) / 2 ^ 14)
    ∧ (∀ s, getQuatReal s = (toInt16 s.rawQuatReal : ℚ) / 2 ^ 14)
    ∧ (∀ s, getQuatRadianAccuracy s = (toInt16 s.rawQuatRadianAccuracy : ℚ) / 2 ^ 14)
    ∧ (∀ s, getAccelX s = (toInt16 s.rawAccelX : ℚ) / 2 ^ 8)
    ∧ (∀ s, getAccelY s = (toInt16 s.rawAccelY : ℚ) / 2 ^ 8)
    ∧ (∀ s, getAccelZ s = (toInt16 s.rawAccelZ : ℚ) / 2 ^ 8)
    ∧ (∀ s, getLinAccelX s = (toInt16 s.rawLinAccelX : ℚ) / 2 ^ 8)
    ∧ (∀ s, getLinAccelY s = (toInt16 s.rawLinAccelY : ℚ) / 2 ^ 8)
    ∧ (∀ s, getLinAccelZ s = (toInt16 s.rawLinAccelZ : ℚ) / 2 ^ 8)
    ∧ (∀ s, getGyroX s = (toInt16 s.rawGyroX : ℚ) / 2 ^ 9)
    ∧ (∀ s, getGyroY s = (toInt16 s.rawGyroY : ℚ) / 2 ^ 9)
    ∧ (∀ s, getGyroZ s = (toInt16 s.rawGyroZ : ℚ) / 2 ^ 9)
    ∧ (∀ s, getMagX s = (toInt16 s.rawMagX : ℚ) / 2 ^ 4)
    ∧ (∀ s, getMagY s = (toInt16 s.rawMagY : ℚ) / 2 ^ 4)
    ∧ (∀ s, getMagZ s = (toInt16 s.rawMagZ : ℚ) / 2 ^ 4) := by
  refine ⟨qToFloat_eq_div, ?_, ?_, ?_, ?_, ?_, ?_, ?_, ?_, ?_, ?_, ?_, ?_, ?_, ?_, ?_, ?_,
    ?_, ?_, ?_⟩
  · rw [qToFloat_eq_div]; norm_num
  · rw [qToFloat_eq_div]; norm_num
  all_goals intro s
  · simp only [getQuatI, rotationVector_Q1, qToFloat_eq_div]
  · simp only [getQuatJ, rotationVector_Q1, qToFloat_eq_div]
  · simp only [getQuatK, rotationVector_Q1, qToFloat_eq_div]
  · simp only [getQuatReal, rotationVector_Q1, qToFloat_eq_div]
  · simp only [getQuatRadianAccuracy, rotationVector_Q1, qToFloat_eq_div]
  · simp only [getAccelX, accelerometer_Q1, qToFloat_eq_div]
  · simp only [getAccelY, accelerometer_Q1, qToFloat_eq_div]
  · simp only [getAccelZ, accelerometer_Q1, qToFloat_eq_div]
  · simp only [getLinAccelX, linear_accelerometer_Q1, qToFloat_eq_div]
  · simp only [getLinAccelY, linear_accelerometer_Q1, qToFloat_eq_div]
  · simp only [getLinAccelZ, linear_accelerometer_Q1, qToFloat_eq_div]
  · simp only [getGyroX, gyro_Q1, qToFloat_eq_div]
  · simp only [getGyroY, gyro_Q1, qToFloat_eq_div]
  · simp only [getGyroZ, gyro_Q1, qToFloat_eq_div]
  · simp only [getMagX, magnetometer_Q1, qToFloat_eq_div]
  · simp only [getMagY, magnetometer_Q1, qToFloat_eq_div]
  · simp only [getMagZ, magnetometer_Q1, qToFloat_eq_div]

/-- Claim C2: when the raw 16-bit header length field has its top
(continuation) bit set, both decoders clear that bit before subtracting
the 4-byte header: in general the masked length is the raw value minus
0x8000, the raw field 0x8010 gives masked length 16 and a
parseInputReport data count of 12, and a receivePacket run whose header
declares 0x8010 reads exactly 12 payload bytes. -/
theorem packet_length_top_bit (lsb msb : Nat) (h : 128 ≤ msb % 256) :
    shtpLength lsb msb = (msb % 256) * 256 + lsb % 256 - 32768
    ∧ shtpLength 0x10 0x80 = 16
    ∧ parseDataLength (fun i => if i = 0 then 0x10 else if i = 1 then 0x80 else 0) = 12
    ∧ (receivePacket c2State).1 = true
    ∧ ((receivePacket c2State).2).shtpData 0 = 101
    ∧ ((receivePacket c2State).2).shtpData 11 = 112
    ∧ ((receivePacket c2State).2).shtpData 12 = 0
    ∧ ((receivePacket c2State).2).cursor = 2 := by
  refine ⟨?_, by decide, by decide, by decide, by decide, by decide, by decide, by decide⟩
  unfold shtpLength
  omega

/-- Witness for C2 at the concrete header 0x8010. -/
theorem packet_length_top_bit_witness :
    128 ≤ 0x80 % 256 ∧ shtpLength 0x10 0x80 = 0x80 % 256 * 256 + 0x10 % 256 - 32768 :=
  ⟨by decide, (packet_length_top_bit 0x10 0x80 (by decide)).1⟩

/-- Counterexample to claim C3 as stated: with a bus whose header
transaction succeeds (declared length 16, so 12 payload bytes pending)
and whose payload transaction times out, receivePacket returns true,
not false — the false result of getData is discarded by receivePacket. -/
theorem receivePacket_getData_timeout_counterexample : ¬ C3ClaimGetDataPart := by
  intro hclaim
  have hfalse := hclaim c3CexState [16, 0, 3, 0] (by decide) (by decide) (by decide)
  have htrue : (receivePacket c3CexState).1 = true := by decide
  rw [hfalse] at htrue
  exact Bool.noConfusion htrue

/-- Claim C3 amended: receivePacket returns false when the initial
4-byte header read times out (and getData itself returns false when a
chunk read times out), but when the header read succeeds with a nonzero
declared length, receivePacket returns true regardless of whether the
payload read timed out, because the result of getData is discarded. -/
theorem receivePacket_timeout_behavior :
    (∀ s : BNOState, s.bus s.cursor = none → (receivePacket s).1 = false)
    ∧ (∀ (s : BNOState) (n dataSpot : Nat), n ≠ 0 → s.bus s.cursor = none →
        (getData s n dataSpot).1 = false)
    ∧ (∀ (s : BNOState) (tr : List Nat), s.bus s.cursor = some tr →
        shtpLength (rd tr 0) (rd tr 1) ≠ 0 → (receivePacket s).1 = true) := by
  refine ⟨?_, ?_, ?_⟩
  · intro s h
    unfold receivePacket
    rw [h]
  · intro s n dataSpot hn h
    unfold getData getDataAux
    cases n with
    | zero => exact absurd rfl hn
    | succ m =>
      simp only [hn, if_false]
      rw [h]
  · intro s tr h hlen
    unfold receivePacket
    rw [h]
    simp only [hlen, if_false]

/-- Witness for the amended C3 at concrete states. -/
theorem receivePacket_timeout_behavior_witness :
    (initState.bus initState.cursor = none ∧ (receivePacket initState).1 = false)
    ∧ ((12 : Nat) ≠ 0 ∧ (getData initState 12 0).1 = false)
    ∧ (c2State.bus c2State.cursor = some [0x10, 0x80, 3, 7]
        ∧ shtpLength (rd [0x10, 0x80, 3, 7] 0) (rd [0x10, 0x80, 3, 7] 1) ≠ 0
        ∧ (receivePacket c2State).1 = true) :=
  ⟨⟨rfl, receivePacket_timeout_behavior.1 initState rfl⟩,
   ⟨by decide, receivePacket_timeout_behavior.2.1 initState 12 0 (by decide) rfl⟩,
   ⟨rfl, by decide, receivePacket_timeout_behavior.2.2 c2State [0x10, 0x80, 3, 7] rfl (by decide)⟩⟩

/-- The sequence counter of the sending channel is post-incremented
modulo 256. -/
lemma sendPacket_seq_self (c len : Nat) (s : BNOState) :
    ((sendPacket c len s).2).seq c = (s.seq c + 1) % 256 := by
  show Function.update s.seq c ((s.seq c + 1) % 256) c = (s.seq c + 1) % 256
  rw [Function.update_same]

/-- The sequence counters of the other channels are untouched. -/
lemma sendPacket_seq_other (c len d : Nat) (s : BNOState) (hd : d ≠ c) :
    ((sendPacket c len s).2).seq d = s.seq d := by
  show Function.update s.seq c ((s.seq c + 1) % 256) d = s.seq d
  rw [Function.update_noteq hd]

/-- The channel-2 sequence counter after n sends on channel 2. -/
lemma sendPacket_iterate_seq2 (len : Nat) (s : BNOState) (hs : s.seq 2 < 256) (n : Nat) :
    (((fun st => (sendPacket 2 len st).2)^[n]) s).seq 2 = (s.seq 2 + n) % 256 := by
  induction n with
  | zero => simp [Nat.mod_eq_of_lt hs]
  | succ m ih =>
    rw [Function.iterate_succ_apply']
    show ((sendPacket 2 len (((fun st => (sendPacket 2 len st).2)^[m]) s)).2).seq 2 = _
    rw [sendPacket_seq_self, ih, Nat.mod_add_mod]
    omega

/-- Sends on channel 2 never touch the channel-1 sequence counter. -/
lemma sendPacket_iterate_seq1 (len : Nat) (s : BNOState) (n : Nat) :
    (((fun st => (sendPacket 2 len st).2)^[n]) s).seq 1 = s.seq 1 := by
  induction n with
  | zero => rfl
  | succ m ih =>
    rw [Function.iterate_succ_apply']
    show ((sendPacket 2 len (((fun st => (sendPacket 2 len st).2)^[m]) s)).2).seq 1 = _
    rw [sendPacket_seq_other 2 len 1 _ (by decide)]
    exact ih

/-- Claim C4: sendPacket on channel c increments the channel-c sequence
counter modulo 256 and leaves every other channel's counter unchanged;
256 sends on channel 2 return its counter to its initial value while
channel 1's counter is unaffected. -/
theorem sendPacket_sequence (c len : Nat) (s : BNOState) (hc : c < 6) (hs : s.seq 2 < 256) :
    ((sendPacket c len s).2).seq c = (s.seq c + 1) % 256
    ∧ (∀ d, d ≠ c → ((sendPacket c len s).2).seq d = s.seq d)
    ∧ (((fun st => (sendPacket 2 len st).2)^[256]) s).seq 2 = s.seq 2
    ∧ (((fun st => (sendPacket 2 len st).2)^[256]) s).seq 1 = s.seq 1 := by
  refine ⟨sendPacket_seq_self c len s, fun d hd => sendPacket_seq_other c len d s hd, ?_,
    sendPacket_iterate_seq1 len s 256⟩
  rw [sendPacket_iterate_seq2 len s hs 256, Nat.add_mod_right, Nat.mod_eq_of_lt hs]

/-- Witness for C4 on the initial state, channel 3. -/
theorem sendPacket_sequence_witness :
    ((3 : Nat) < 6 ∧ initState.seq 2 < 256)
    ∧ ((sendPacket 3 5 initState).2).seq 3 = (initState.seq 3 + 1) % 256
    ∧ (∀ d, d ≠ 3 → ((sendPacket 3 5 initState).2).seq d = initState.seq d)
    ∧ (((fun st => (sendPacket 2 5 st).2)^[256]) initState).seq 2 = initState.seq 2
    ∧ (((fun st => (sendPacket 2 5 st).2)^[256]) initState).seq 1 = initState.seq 1 :=
  ⟨⟨by decide, by decide⟩, sendPacket_sequence 3 5 initState (by decide) (by decide)⟩

/-- Counterexample to claim C9 as stated: the length field is a uint8
sum in the source, so sendPacket with dataLength = 252 transmits a
16-bit length field of 0, not 256, violating the claimed lower bound
of 4. -/
theorem sendPacket_header_length_counterexample :
    (sendPacket 2 252 initState).1.getD 0 0 + 256 * (sendPacket 2 252 initState).1.getD 1 0
      = 0 := by decide

/-- Claim C9 amended: the transmitted 16-bit length field equals
(dataLength + 4) mod 256; whenever dataLength is at most 251 (as for
every call in this source, the largest being 17) it therefore equals
dataLength + 4 and is at least 4. -/
theorem sendPacket_header_length (c len : Nat) (s : BNOState) (h : len % 256 ≤ 251) :
    ((sendPacket c len s).1.getD 0 0 + 256 * (sendPacket c len s).1.getD 1 0
        = len % 256 + 4 ∧
      4 ≤ (sendPacket c len s).1.getD 0 0 + 256 * (sendPacket c len s).1.getD 1 0)
    ∧ (∀ (c2 len2 : Nat) (s2 : BNOState),
        (sendPacket c2 len2 s2).1.getD 0 0 + 256 * (sendPacket c2 len2 s2).1.getD 1 0
          = (len2 % 256 + 4) % 256) := by
  have hgen : ∀ (c2 len2 : Nat) (s2 : BNOState),
      (sendPacket c2 len2 s2).1.getD 0 0 + 256 * (sendPacket c2 len2 s2).1.getD 1 0
        = (len2 % 256 + 4) % 256 := by
    intro c2 len2 s2
    show (len2 % 256 + 4) % 256 % 256 + 256 * ((len2 % 256 + 4) % 256 / 256) = _
    omega
  refine ⟨⟨?_, ?_⟩, hgen⟩
  · rw [hgen]
    omega
  · rw [hgen]
    omega

/-- Witness for the amended C9 at dataLength = 8 (the FRS read request
size). -/
theorem sendPacket_header_length_witness :
    (8 : Nat) % 256 ≤ 251
    ∧ ((sendPacket 2 8 initState).1.getD 0 0 + 256 * (sendPacket 2 8 initState).1.getD 1 0
        = 8 % 256 + 4 ∧
      4 ≤ (sendPacket 2 8 initState).1.getD 0 0 + 256 * (sendPacket 2 8 initState).1.getD 1 0) :=
  ⟨by decide, (sendPacket_header_length 2 8 initState (by decide)).1⟩

/-- Claim C7: a packet whose report id byte shtpData[5] is 0x01
(accelerometer) makes parseInputReport write only the accelerometer raw
values and accuracy status; every other sensor member keeps its
previous value (the record update below names the only fields that
change). -/
theorem parseInputReport_accel_frame (hdr data : Nat → Nat) (s : SensorState)
    (h : data 5 % 256 = 1) :
    parseInputReport hdr data s =
      { s with accelAccuracy := data 7 % 256 % 4,
               rawAccelX := (data 10 % 256) * 256 + data 9 % 256,
               rawAccelY := (data 12 % 256) * 256 + data 11 % 256,
               rawAccelZ := (data 14 % 256) * 256 + data 13 % 256 } := by
  unfold parseInputReport
  rw [if_pos h]

/-- Witness for C7 on a concrete accelerometer report. -/
theorem parseInputReport_accel_frame_witness :
    w7Data 5 % 256 = 1
    ∧ parseInputReport (fun _ => 0) w7Data initSensors =
      { initSensors with accelAccuracy := 0, rawAccelX := 10, rawAccelY := 0,
                         rawAccelZ := 0 } :=
  ⟨by decide, parseInputReport_accel_frame (fun _ => 0) w7Data initSensors (by decide)⟩

/-- Claim C8: for every byte count passed to getData (also counts above
128) only indices 0..127 of the shtpData buffer are ever written —
indices at or beyond 128 keep their previous contents — and the
overflow is silent: with a bus that always has data, getData still
returns true. -/
theorem getData_buffer_cap :
    (∀ (s : BNOState) (n dataSpot i : Nat), 128 ≤ i →
      ((getData s n dataSpot).2).shtpData i = s.shtpData i)
    ∧ (∀ (s : BNOState) (n dataSpot : Nat), (∀ k, (s.bus k).isSome) →
      (getData s n dataSpot).1 = true) := by
  constructor
  · intro s n dataSpot i hi
    exact getDataAux_frame n s n dataSpot i hi
  · intro s n dataSpot hb
    exact getDataAux_ok n s n dataSpot le_rfl hb

/-- Witness for C8: a 200-byte read over an always-available bus leaves
index 130 untouched and still reports success. -/
theorem getData_buffer_cap_witness :
    (128 ≤ 130 ∧ ((getData w8State 200 0).2).shtpData 130 = w8State.shtpData 130)
    ∧ ((∀ k, (w8State.bus k).isSome) ∧ (getData w8State 200 0).1 = true) :=
  ⟨⟨by decide, getData_buffer_cap.1 w8State 200 0 130 (by decide)⟩,
   ⟨fun _ => rfl, getData_buffer_cap.2 w8State 200 0 (fun _ => rfl)⟩⟩

/-- Receiving from a bus whose next two transactions are an FRS
response header (declared length 20) and its 16-byte payload chunk
succeeds and copies the payload into shtpData. -/
lemma receivePacket_frs (s : BNOState) (st rl rh b4 b5 b6 b7 b8 b9 b10 b11 : Nat)
    (hbus0 : s.bus s.cursor = some [20, 0, 2, 0])
    (hbus1 : s.bus (s.cursor + 1) = some (frsRespTrans st rl rh b4 b5 b6 b7 b8 b9 b10 b11)) :
    receivePacket s = (true,
      { s with cursor := s.cursor + 1 + 1,
               shtpHeader := fun i => if i < 4 then rd [20, 0, 2, 0] i else s.shtpHeader i,
               shtpData := readChunk (frsRespTrans st rl rh b4 b5 b6 b7 b8 b9 b10 b11) 0
                 s.shtpData 16 }) := by
  unfold receivePacket
  rw [hbus0]
  show (true, (getData _ 16 0).2) = _
  unfold getData
  show (true, (getDataAux 16 _ 16 0).2) = _
  rw [show (16 : Nat) = 15 + 1 from rfl]
  unfold getDataAux
  dsimp only
  rw [hbus1]
  rfl

/-- A matching FRS response with terminal status ends the polling loop
in a single iteration with a true result, the two transactions of that
one response consumed, and the first data word (when the packet carries
at least one) stored at the current metaData spot. -/
lemma readFRSloop_terminal_aux (s : BNOState) (spot st rl rh b4 b5 b6 b7 b8 b9 b10 b11 : Nat)
    (hbus0 : s.bus s.cursor = some [20, 0, 2, 0])
    (hbus1 : s.bus (s.cursor + 1) = some (frsRespTrans st rl rh b4 b5 b6 b7 b8 b9 b10 b11))
    (hst : st < 256) (hrl : rl < 256) (hrh : rh < 256)
    (hb4 : b4 < 256) (hb5 : b5 < 256) (hb6 : b6 < 256) (hb7 : b7 < 256)
    (hterm : st % 16 = 3 ∨ st % 16 = 6 ∨ st % 16 = 7) :
    ∃ s2, readFRSloop (rh * 256 + rl) spot s 1 = some (true, s2)
      ∧ s2.cursor = s.cursor + 2
      ∧ (0 < st / 16 → s2.metaData spot = b7 * 16777216 + b6 * 65536 + b5 * 256 + b4) := by
  have hfw : frsWait 102 s = (true,
      { s with cursor := s.cursor + 1 + 1,
               shtpHeader := fun i => if i < 4 then rd [20, 0, 2, 0] i else s.shtpHeader i,
               shtpData := readChunk (frsRespTrans st rl rh b4 b5 b6 b7 b8 b9 b10 b11) 0
                 s.shtpData 16 }) := by
    rw [show (102 : Nat) = 101 + 1 from rfl, frsWait_succ,
      receivePacket_frs s st rl rh b4 b5 b6 b7 b8 b9 b10 b11 hbus0 hbus1]
  have hloop := readFRSloop_succ (rh * 256 + rl) spot s 0
  rw [show (0 : Nat) + 1 = 1 from rfl] at hloop
  rw [hloop, hfw]
  dsimp only
  have hlook : ∀ j, j < 16 →
      readChunk (frsRespTrans st rl rh b4 b5 b6 b7 b8 b9 b10 b11) 0 s.shtpData 16 j =
        rd (frsRespTrans st rl rh b4 b5 b6 b7 b8 b9 b10 b11) (j + 4) := fun j hj =>
    readChunk_at _ 0 s.shtpData 16 j (Nat.zero_le j) (by omega) (by omega)
  have h0 : readChunk (frsRespTrans st rl rh b4 b5 b6 b7 b8 b9 b10 b11) 0 s.shtpData 16 0
      = 243 := by rw [hlook 0 (by omega)]; rfl
  have h1 : readChunk (frsRespTrans st rl rh b4 b5 b6 b7 b8 b9 b10 b11) 0 s.shtpData 16 1
      = st := by rw [hlook 1 (by omega)]; exact Nat.mod_eq_of_lt hst
  have h4 : readChunk (frsRespTrans st rl rh b4 b5 b6 b7 b8 b9 b10 b11) 0 s.shtpData 16 4
      = b4 := by rw [hlook 4 (by omega)]; exact Nat.mod_eq_of_lt hb4
  have h5 : readChunk (frsRespTrans st rl rh b4 b5 b6 b7 b8 b9 b10 b11) 0 s.shtpData 16 5
      = b5 := by rw [hlook 5 (by omega)]; exact Nat.mod_eq_of_lt hb5
  have h6 : readChunk (frsRespTrans st rl rh b4 b5 b6 b7 b8 b9 b10 b11) 0 s.shtpData 16 6
      = b6 := by rw [hlook 6 (by omega)]; exact Nat.mod_eq_of_lt hb6
  have h7 : readChunk (frsRespTrans st rl rh b4 b5 b6 b7 b8 b9 b10 b11) 0 s.shtpData 16 7
      = b7 := by rw [hlook 7 (by omega)]; exact Nat.mod_eq_of_lt hb7
  have h12 : readChunk (frsRespTrans st rl rh b4 b5 b6 b7 b8 b9 b10 b11) 0 s.shtpData 16 12
      = rl := by rw [hlook 12 (by omega)]; exact Nat.mod_eq_of_lt hrl
  have h13 : readChunk (frsRespTrans st rl rh b4 b5 b6 b7 b8 b9 b10 b11) 0 s.shtpData 16 13
      = rh := by rw [hlook 13 (by omega)]; exact Nat.mod_eq_of_lt hrh
  rw [h0, h1, h4, h5, h6, h7, h12, h13]
  rw [Nat.mod_eq_of_lt hst]
  rw [if_pos (And.intro (by norm_num)
    (by rw [Nat.mod_eq_of_lt hrh, Nat.mod_eq_of_lt hrl,
        Nat.mod_eq_of_lt (show rh * 256 + rl < 65536 by omega)]))]
  have hcollapse : ∀ (c : Prop) (inst : Decidable c) (x y : Option (Bool × BNOState)),
      (@ite _ c inst x (if st % 16 = 3 ∨ st % 16 = 6 ∨ st % 16 = 7 then x else y)) = x := by
    intro c inst x y
    by_cases hc : c
    · rw [if_pos hc]
    · rw [if_neg hc, if_pos hterm]
  by_cases hdl1 : 1 < st / 16
  · have hdl0 : 0 < st / 16 := by omega
    simp only [hdl0, hdl1, if_true]
    rw [hcollapse]
    refine ⟨_, rfl, rfl, fun _ => ?_⟩
    dsimp only
    rw [Function.update_noteq (by omega), Function.update_same]
    omega
  · by_cases hdl0 : 0 < st / 16
    · simp only [hdl0, hdl1, if_true, if_false]
      rw [hcollapse]
      refine ⟨_, rfl, rfl, fun _ => ?_⟩
      dsimp only
      rw [Function.update_same]
      omega
    · simp only [hdl0, hdl1, if_false]
      rw [hcollapse]
      exact ⟨_, rfl, rfl, fun hpos => hpos.elim⟩

/-- Claim C5: when the polled FRS response packet carrying the
requested record id has a terminal status code (3, 6 or 7 in the low
nibble of shtpData[1]), readFRSdata stops polling and returns true,
with the words collected so far stored in metaData; a request for one
word returns after exactly one response packet (loop fuel 1 suffices
and just the two bus transactions of that packet are consumed). -/
theorem readFRSdata_terminal_status (s : BNOState) (st rl rh b4 b5 b6 b7 b8 b9 b10 b11 : Nat)
    (hbus0 : s.bus s.cursor = some [20, 0, 2, 0])
    (hbus1 : s.bus (s.cursor + 1) = some (frsRespTrans st rl rh b4 b5 b6 b7 b8 b9 b10 b11))
    (hst : st < 256) (hrl : rl < 256) (hrh : rh < 256)
    (hb4 : b4 < 256) (hb5 : b5 < 256) (hb6 : b6 < 256) (hb7 : b7 < 256)
    (hterm : st % 16 = 3 ∨ st % 16 = 6 ∨ st % 16 = 7) :
    ∃ s2, readFRSdata (rh * 256 + rl) 0 1 s 1 = some (true, s2)
      ∧ s2.cursor = s.cursor + 2
      ∧ (0 < st / 16 → s2.metaData 0 = b7 * 16777216 + b6 * 65536 + b5 * 256 + b4) := by
  unfold readFRSdata
  obtain ⟨hbus, hcur, _⟩ := frsReadRequest_bus (rh * 256 + rl) 0 1 s
  obtain ⟨s2, hres, hcur2, hmeta⟩ :=
    readFRSloop_terminal_aux (frsReadRequest (rh * 256 + rl) 0 1 s) 0 st rl rh
      b4 b5 b6 b7 b8 b9 b10 b11
      (by rw [hbus, hcur]; exact hbus0) (by rw [hbus, hcur]; exact hbus1)
      hst hrl hrh hb4 hb5 hb6 hb7 hterm
  exact ⟨s2, hres, by rw [hcur2, hcur], hmeta⟩

/-- Witness for C5: record 0xE302, status byte 0x23 (two data words,
status 3). -/
theorem readFRSdata_terminal_status_witness :
    (sC5.bus sC5.cursor = some [20, 0, 2, 0]
      ∧ sC5.bus (sC5.cursor + 1) = some (frsRespTrans 0x23 2 0xE3 11 12 13 14 21 22 23 24)
      ∧ (0x23 : Nat) % 16 = 3)
    ∧ (∃ s2, readFRSdata (0xE3 * 256 + 2) 0 1 sC5 1 = some (true, s2)
      ∧ s2.cursor = sC5.cursor + 2
      ∧ (0 < (0x23 : Nat) / 16 →
          s2.metaData 0 = 14 * 16777216 + 13 * 65536 + 12 * 256 + 11)) :=
  ⟨⟨rfl, rfl, by decide⟩,
    readFRSdata_terminal_status sC5 0x23 2 0xE3 11 12 13 14 21 22 23 24 rfl rfl
      (by decide) (by decide) (by decide) (by decide) (by decide) (by decide) (by decide)
      (Or.inl (by decide))⟩

/-- On the always-non-matching bus, every receive succeeds and leaves a
zero report id in shtpData[0]. -/
lemma receivePacket_adv (s : BNOState) (h : s.bus = advBus) :
    receivePacket s = (true,
      { s with cursor := s.cursor + 1 + 1,
               shtpHeader := fun i => if i < 4 then rd advTr i else s.shtpHeader i,
               shtpData := readChunk advTr 0 s.shtpData 4 }) := by
  unfold receivePacket
  rw [show s.bus s.cursor = some advTr from by rw [h]; rfl]
  show (true, (getData _ 4 0).2) = _
  unfold getData
  show (true, (getDataAux 4 _ 4 0).2) = _
  rw [show (4 : Nat) = 3 + 1 from rfl]
  unfold getDataAux
  dsimp only
  rw [show s.bus (s.cursor + 1) = some advTr from by rw [h]; rfl]
  rfl

/-- On the always-non-matching bus the FRS packet-processing loop never
returns, whatever the fuel: the claim C6 scenario where complete but
non-matching packets keep arriving is an infinite loop in the source. -/
lemma readFRSloop_adv (rid : Nat) : ∀ (fuel spot : Nat) (s : BNOState), s.bus = advBus →
    readFRSloop rid spot s fuel = none := by
  intro fuel
  induction fuel with
  | zero => intro spot s _; rfl
  | succ m ih =>
    intro spot s h
    have hfw : frsWait 102 s = (true,
        { s with cursor := s.cursor + 1 + 1,
                 shtpHeader := fun i => if i < 4 then rd advTr i else s.shtpHeader i,
                 shtpData := readChunk advTr 0 s.shtpData 4 }) := by
      rw [show (102 : Nat) = 101 + 1 from rfl, frsWait_succ, receivePacket_adv s h]
    rw [readFRSloop_succ, hfw]
    dsimp only
    have hz : readChunk advTr 0 s.shtpData 4 0 = 0 := by
      rw [readChunk_at advTr 0 s.shtpData 4 0 (Nat.zero_le 0) (by omega) (by omega)]
      rfl
    rw [hz, if_neg (fun hcon => absurd hcon.1 (by decide))]
    exact ih spot _ h

/-- readFRSdata never terminates on the always-non-matching bus. -/
lemma readFRSdata_adv (rid a b fuel : Nat) : readFRSdata rid a b sAdv fuel = none := by
  unfold readFRSdata
  exact readFRSloop_adv rid fuel 0 _ rfl

/-- Counterexample to claim C6 as stated: the always-available bus that
never delivers a matching FRS response makes readFRSdata loop forever
(the result is still pending after any number of processed packets), so
it is not the case that every no-matching-response input produces a
false return. -/
theorem readFRSdata_nomatch_counterexample : ¬ C6Statement := by
  intro hclaim
  have hnm : NoMatchingResponse sAdv := by
    constructor
    · decide
    · intro k tr htr
      have h2 : (some advTr : Option (List Nat)) = some tr := htr
      rw [← Option.some.inj h2]
      decide
  obtain ⟨fuel, s2, hres⟩ := hclaim sAdv 0xE302 0 1 hnm
  rw [readFRSdata_adv 0xE302 0 1 fuel] at hres
  exact Option.noConfusion hres

/-- Claim C6 amended: the per-packet wait is bounded, so on an input
whose bus never signals data (every transaction times out) readFRSdata
does return false after the 102 consecutive failed receive attempts of
its first packet wait; but when complete non-matching packets keep
arriving the loop does not terminate (see the counterexample). -/
theorem readFRSdata_timeout_bounded (s : BNOState) (rid a b fuel : Nat)
    (h : ∀ k, s.bus k = none) :
    (readFRSdata rid a b s (fuel + 1)).map Prod.fst = some false := by
  unfold readFRSdata
  have h1 : ∀ k, (frsReadRequest rid a b s).bus k = none := fun k => h k
  rw [readFRSloop_succ]
  have hw := frsWait_allnone 102 (frsReadRequest rid a b s) h1
  have hp : frsWait 102 (frsReadRequest rid a b s) =
      (false, (frsWait 102 (frsReadRequest rid a b s)).2) := Prod.ext hw.1 rfl
  rw [hp]
  rfl

/-- Witness for the amended C6 on the silent bus. -/
theorem readFRSdata_timeout_bounded_witness :
    (∀ k, initState.bus k = none)
    ∧ (readFRSdata 0xE302 0 1 initState (0 + 1)).map Prod.fst = some false :=
  ⟨fun _ => rfl, readFRSdata_timeout_bounded initState 0xE302 0 1 0 (fun _ => rfl)⟩

/-- Serial.print(0.0, 2) renders as 0.00. -/
lemma printFloat2_zero : printFloat2 0 = "0.00" := by
  simp only [printFloat2]
  rw [show |(0:ℚ)| + 1/200 = 1/200 by norm_num]
  rw [show Int.fract ((1:ℚ)/200) = 1/200 by rw [Int.fract]; norm_num]
  rw [show (1:ℚ)/200 * 10 = 1/20 by norm_num]
  rw [show Int.fract ((1:ℚ)/20) = 1/20 by rw [Int.fract]; norm_num]
  rw [show (1:ℚ)/20 * 10 = 1/2 by norm_num]
  rw [show ⌊(1:ℚ)/200⌋ = 0 by norm_num, show ⌊(1:ℚ)/20⌋ = 0 by norm_num,
    show ⌊(1:ℚ)/2⌋ = 0 by norm_num, if_neg (lt_irrefl (0:ℚ))]
  rfl

/-- Counterexample to claim C10 as stated: the sketch guards the plus
sign with a strict comparison, so the value zero — non-negative — is
printed without a leading plus: the line for an all-zero quaternion is
0.00,0.00,0.00,0.00 and its first character is the digit 0, not a plus
sign. -/
theorem loop_plus_zero_counterexample :
    quatLine 0 0 0 0 = "0.00,0.00,0.00,0.00\r\n"
    ∧ (quatField 0).data.head? = some '0' ∧ ('0' : Char) ≠ '+' := by
  have hp : printFloat2 0 = "0.00" := printFloat2_zero
  have hs : plusSign 0 = "" := by unfold plusSign; rw [if_neg (lt_irrefl (0:ℚ))]
  refine ⟨?_, ?_, by decide⟩
  · unfold quatLine
    rw [hp, hs]
    rfl
  · unfold quatField
    rw [hp, hs]
    rfl

/-- Claim C10 amended: the loop emits one CR-LF-terminated line of four
comma-separated fields per decoded rotation-vector report; each field
is the two-decimal rendering of the value, preceded by an explicit plus
sign exactly when the value is strictly positive (zero and negative
values get no plus; negative values carry the minus sign of the number
rendering); each rendering ends in a decimal point followed by exactly
two decimal digits. -/
theorem loop_serial_format :
    (∀ i j k r : ℚ, quatLine i j k r =
      quatField i ++ "," ++ quatField j ++ "," ++ quatField k ++ "," ++ quatField r ++ "\r\n")
    ∧ (∀ x : ℚ, 0 < x → ∃ t, quatField x = "+" ++ t)
    ∧ (∀ x : ℚ, x ≤ 0 → quatField x = printFloat2 x)
    ∧ (∀ x : ℚ, x < 0 → ∃ t, printFloat2 x = "-" ++ t)
    ∧ (∀ x : ℚ, ∃ (sgn : String) (ip d1 d2 : Nat), printFloat2 x =
        sgn ++ toString ip ++ "." ++ toString d1 ++ toString d2 ∧ d1 < 10 ∧ d2 < 10
        ∧ (sgn = "-" ∨ sgn = "")) := by
  refine ⟨?_, ?_, ?_, ?_, ?_⟩
  · intro i j k r
    simp [quatLine, quatField, String.append_assoc]
  · intro x hx
    refine ⟨printFloat2 x, ?_⟩
    unfold quatField plusSign
    rw [if_pos hx]
  · intro x hx
    unfold quatField plusSign
    rw [if_neg (not_lt.mpr hx)]
    exact string_empty_append _
  · intro x hx
    refine ⟨toString (⌊|x| + 1/200⌋).toNat ++ "." ++
      toString (⌊Int.fract (|x| + 1/200) * 10⌋).toNat ++
      toString (⌊Int.fract (Int.fract (|x| + 1/200) * 10) * 10⌋).toNat, ?_⟩
    simp only [printFloat2]
    rw [if_pos hx]
    simp [String.append_assoc]
  · intro x
    refine ⟨(if x < 0 then "-" else ""), (⌊|x| + 1/200⌋).toNat,
      (⌊Int.fract (|x| + 1/200) * 10⌋).toNat,
      (⌊Int.fract (Int.fract (|x| + 1/200) * 10) * 10⌋).toNat, rfl, ?_, ?_, ?_⟩
    · have h0 : (0:ℚ) ≤ Int.fract (|x| + 1/200) := Int.fract_nonneg _
      have h1 : Int.fract (|x| + 1/200) < 1 := Int.fract_lt_one _
      have h2 : ⌊Int.fract (|x| + 1/200) * 10⌋ < 10 :=
        Int.floor_lt.mpr (by push_cast; nlinarith)
      have h3 : (0:ℤ) ≤ ⌊Int.fract (|x| + 1/200) * 10⌋ := Int.floor_nonneg.mpr (by nlinarith)
      omega
    · have h0 : (0:ℚ) ≤ Int.fract (Int.fract (|x| + 1/200) * 10) := Int.fract_nonneg _
      have h1 : Int.fract (Int.fract (|x| + 1/200) * 10) < 1 := Int.fract_lt_one _
      have h2 : ⌊Int.fract (Int.fract (|x| + 1/200) * 10) * 10⌋ < 10 :=
        Int.floor_lt.mpr (by push_cast; nlinarith)
      have h3 : (0:ℤ) ≤ ⌊Int.fract (Int.fract (|x| + 1/200) * 10) * 10⌋ :=
        Int.floor_nonneg.mpr (by nlinarith)
      omega
    · by_cases hx : x < 0
      · exact Or.inl (if_pos hx)
      · exact Or.inr (if_neg hx)

/-- Witness for the amended C10 at the values 1 and -1. -/
theorem loop_serial_format_witness :
    ((0:ℚ) < 1 ∧ ∃ t, quatField 1 = "+" ++ t)
    ∧ ((-1:ℚ) ≤ 0 ∧ quatField (-1) = printFloat2 (-1))
    ∧ ((-1:ℚ) < 0 ∧ ∃ t, printFloat2 (-1) = "-" ++ t) :=
  ⟨⟨by norm_num, loop_serial_format.2.1 1 (by norm_num)⟩,
   ⟨by norm_num, loop_serial_format.2.2.1 (-1) (by norm_num)⟩,
   ⟨by norm_num, loop_serial_format.2.2.2.1 (-1) (by norm_num)⟩⟩
